import Mathlib

/-!
Verification of the Bavarium Maintenance Planner core (app.py):
the per-item maintenance-status evaluation engine (`evaluate_item` and its
formatting helpers), the date helpers (`add_years`, `months_between`) and the
submission / review workflow (`save_submission_for_review`,
`review_submission`) over an explicit relational-store state.

Python ints are embedded as `Int`, Python `date` values as a `Date` record of
year/month/day with the usual validity predicate, `None`-able values as
`Option`, and the two database tables as lists of records.
-/

namespace Bavarium

/-- A calendar date, embedding Python `datetime.date` (year, month, day). -/
structure Date where
  year : Int
  month : Int
  day : Int
deriving DecidableEq, Repr

/-- Gregorian leap year test, as Python's `calendar`/`datetime` use it. -/
def isLeap (y : Int) : Bool :=
  y % 4 == 0 && (y % 100 != 0 || y % 400 == 0)

/-- Number of days of month `m` in year `y` (Python `calendar.monthrange`). -/
def daysInMonth (y m : Int) : Int :=
  if m = 2 then (if isLeap y then 29 else 28)
  else if m = 4 ∨ m = 6 ∨ m = 9 ∨ m = 11 then 30 else 31

/-- The dates Python `datetime.date` can represent (bounds on year ignored). -/
def validDate (d : Date) : Prop :=
  1 ≤ d.month ∧ d.month ≤ 12 ∧ 1 ≤ d.day ∧ d.day ≤ daysInMonth d.year d.month

instance (d : Date) : Decidable (validDate d) := by
  unfold validDate; infer_instance

/-- Python date comparison `a <= b`: lexicographic on (year, month, day). -/
def dateLe (a b : Date) : Bool :=
  decide (a.year < b.year ∨ (a.year = b.year ∧
    (a.month < b.month ∨ (a.month = b.month ∧ a.day ≤ b.day))))

/-- app.py `add_years`: `d.replace(year=d.year+years)`, falling back to
February 28 of the target year when the shifted date does not exist
(`except ValueError: return d.replace(month=2, day=28, year=...)`). -/
def add_years (d : Date) (years : Int) : Date :=
  if daysInMonth (d.year + years) d.month < d.day then
    { year := d.year + years, month := 2, day := 28 }
  else
    { year := d.year + years, month := d.month, day := d.day }

/-- app.py `months_between`: `(d2.year - d1.year) * 12 + (d2.month - d1.month)`. -/
def months_between (d1 d2 : Date) : Int :=
  (d2.year - d1.year) * 12 + (d2.month - d1.month)

/-- The four statuses `evaluate_item` can return. -/
inductive Status where
  | due_now
  | due_soon
  | ok
  | na
deriving DecidableEq, Repr

/-- Urgency order on statuses: ok < due_soon < due_now (na below all). -/
def urgency : Status → Nat
  | .na => 0
  | .ok => 1
  | .due_soon => 2
  | .due_now => 3

/-- A per-item interval dict: the keys `"years"` / `"miles"`, each present
with a (positive, in the app) integer value or absent. -/
structure Interval where
  years : Option Int
  miles : Option Int
deriving DecidableEq, Repr

/-- Truthiness of the Python interval dict: an empty dict is falsy.
In the app a key is only ever stored with a non-`None` value, so a dict is
empty exactly when both keys are absent. -/
def ivFalsy (iv : Interval) : Bool :=
  iv.years.isNone && iv.miles.isNone

/-- `not iv` for `iv = st.session_state.intervals.get(item)`: the item has no
interval entry at all, or an empty one. -/
def interval_missing : Option Interval → Bool
  | none => true
  | some i => ivFalsy i

/-- The vehicle dict fields the modelled operations read. -/
structure Vehicle where
  vin : String
  year : Int
  make : String
  model : String
  current_miles : Int
  production_date : Option Date
  engine : String
  trans : String
  drive : String
deriving DecidableEq, Repr

/-- A per-item history dict. -/
structure Hist where
  known : Bool
  last_miles : Option Int
  last_date : Option Date
  not_equipped : Bool
  performed_this_visit : Bool
deriving DecidableEq, Repr

/-- The `bulk_bullets` session dict (all four keys are always present). -/
structure Bullets where
  due_now : String
  due_soon : String
  ok : String
  na : String
deriving DecidableEq, Repr

/-- `bulk_bullets.get(status, "•")`: every status is a key of the dict. -/
def bulletOf (b : Bullets) : Status → String
  | .due_now => b.due_now
  | .due_soon => b.due_soon
  | .ok => b.ok
  | .na => b.na

/-- The `{"due_now": "DUE NOW", "due_soon": "DUE SOON", "ok": "OK"}[status]`
lookup. `evaluate_item` only reaches it with the first three statuses; on
`na` Python would raise KeyError, here mapped to `""`. -/
def statusLabel : Status → String
  | .due_now => "DUE NOW"
  | .due_soon => "DUE SOON"
  | .ok => "OK"
  | .na => ""

/-- The fixed serviced-today marker string of app.py. -/
def scvd_today : String := "SCV’D TODAY"

/-- Thousands grouping over a reversed digit list: after every three digits
(from the right) insert a comma. -/
def commaRev : List Char → List Char
  | c1 :: c2 :: c3 :: c4 :: rest => c1 :: c2 :: c3 :: ',' :: commaRev (c4 :: rest)
  | l => l

/-- Python `f"{n:,}"` for a natural number. -/
def natComma (n : Nat) : String :=
  String.mk (commaRev (toString n).data.reverse).reverse

/-- Python `f"{n:,}"` for an int (sign, then grouped digits). -/
def intComma (n : Int) : String :=
  if n < 0 then "-" ++ natComma n.natAbs else natComma n.natAbs

/-- Two-digit zero-padded field, as `strftime("%m")` renders a month. -/
def pad2 (n : Int) : String :=
  if 0 ≤ n ∧ n < 10 then "0" ++ toString n else toString n

/-- Four-digit zero-padded field, as `strftime("%Y")` renders a year. -/
def pad4 (n : Int) : String :=
  if 0 ≤ n ∧ n < 10 then "000" ++ toString n
  else if 0 ≤ n ∧ n < 100 then "00" ++ toString n
  else if 0 ≤ n ∧ n < 1000 then "0" ++ toString n
  else toString n

/-- `d.strftime("%m/%Y")`. -/
def fmtMY (d : Date) : String :=
  pad2 d.month ++ "/" ++ pad4 d.year

/-- app.py `fmt_last_done(hist, vehicle)`. -/
def fmt_last_done (hist : Hist) (vehicle : Vehicle) : String :=
  if hist.not_equipped then "not equipped / not serviceable"
  else if hist.known then
    match hist.last_date, hist.last_miles with
    | some ld, some lm =>
      if 0 < lm then "last " ++ fmtMY ld ++ " @ " ++ intComma lm ++ " mi"
      else "last " ++ fmtMY ld
    | some ld, none => "last " ++ fmtMY ld
    | none, some lm =>
      if 0 < lm then "last @ " ++ intComma lm ++ " mi"
      else "history known (missing)"
    | none, none => "history known (missing)"
  else
    match vehicle.production_date with
    | some pd => "no history (baseline " ++ fmtMY pd ++ ")"
    | none => "no history (baseline unknown)"

/-- app.py `interval_phrase_short(iv)`. -/
def interval_phrase_short (iv : Interval) : String :=
  let parts : List String :=
    (match iv.years with
     | some y => ["every " ++ toString y ++ " yr"]
     | none => []) ++
    (match iv.miles with
     | some m => ["every " ++ intComma m ++ " mi"]
     | none => [])
  if parts.isEmpty then "interval not set" else String.intercalate " / " parts

/-- app.py `interval_phrase_bulk(iv, item)`: Engine Oil gets a `"DUE "` prefix
and K-form mileage for exact multiples of 1000 up to 15000; every other item
gets an `"interval "` prefix with comma-grouped mileage. -/
def interval_phrase_bulk (iv : Interval) (item : String) : String :=
  let parts : List String :=
    (match iv.years with
     | some y => [toString y ++ " yr"]
     | none => []) ++
    (match iv.miles with
     | some m =>
       [if item = "Engine Oil" ∧ m % 1000 = 0 ∧ m ≤ 15000 then
          toString (m / 1000) ++ "K"
        else intComma m ++ " mi"]
     | none => [])
  if parts.isEmpty then "interval ?"
  else if item = "Engine Oil" then "DUE " ++ String.intercalate " / " parts
  else "interval " ++ String.intercalate " / " parts

/-- What one dimension (miles or time) of the evaluation produces: the two
status flags and, when the dimension was evaluated, its concise and verbose
next-due phrases. -/
structure DimEval where
  due : Bool
  soon : Bool
  txt : Option (String × String)
deriving DecidableEq, Repr

/-- The miles block of `evaluate_item`: run only when the interval has a
miles target and a positive baseline mileage exists; `due_at = base + miles`,
`remaining = due_at - current`, due at `current >= due_at`, soon when not due
and `remaining <= threshold`. -/
def miles_eval (iv : Interval) (base_miles : Option Int) (current_miles : Int)
    (due_soon_miles : Int) : DimEval :=
  match iv.miles, base_miles with
  | some m, some b =>
    if 0 < b then
      let due_at := b + m
      let remaining := due_at - current_miles
      let md := decide (due_at ≤ current_miles)
      let ms := !md && decide (remaining ≤ due_soon_miles)
      if 0 ≤ remaining then
        ⟨md, ms, some ("next ~" ++ intComma due_at ++ " mi",
          "miles due @ " ++ intComma due_at ++ " (in " ++ intComma remaining ++ ")")⟩
      else
        ⟨md, ms, some ("due was " ++ intComma due_at ++ " mi",
          "miles due @ " ++ intComma due_at ++ " (over " ++ natComma remaining.natAbs ++ ")")⟩
    else ⟨false, false, none⟩
  | _, _ => ⟨false, false, none⟩

/-- The time block of `evaluate_item`: run only when the interval has a years
target and a baseline date exists; `due_date = add_years base years`, due at
`today >= due_date`, soon when not due and `months_between today due_date`
is at most the months threshold. -/
def time_eval (iv : Interval) (base_date : Option Date) (today : Date)
    (due_soon_months : Int) : DimEval :=
  match iv.years, base_date with
  | some y, some bd =>
    let due_date := add_years bd y
    let months_to_due := months_between today due_date
    let td := dateLe due_date today
    let ts := !td && decide (months_to_due ≤ due_soon_months)
    if 0 ≤ months_to_due then
      ⟨td, ts, some ("next ~" ++ fmtMY due_date,
        "time due " ++ fmtMY due_date ++ " (in ~" ++ toString months_to_due ++ " mo)")⟩
    else
      ⟨td, ts, some ("due was " ++ fmtMY due_date,
        "time due " ++ fmtMY due_date ++ " (over ~" ++ toString months_to_due.natAbs ++ " mo)")⟩
  | _, _ => ⟨false, false, none⟩

/-- The baselines of `evaluate_item`: known history uses the stored last
mileage, otherwise the baseline mileage is the int 0. -/
def base_miles_of (hist : Hist) : Option Int :=
  if hist.known then hist.last_miles else some 0

/-- The date baseline: stored last date for known history, else the
vehicle's production date. -/
def base_date_of (hist : Hist) (vehicle : Vehicle) : Option Date :=
  if hist.known then hist.last_date else vehicle.production_date

/-- The OR-composed status of the two dimensions: due_now if either is due,
else due_soon if either is soon, else ok. -/
def status_of (me te : DimEval) : Status :=
  if me.due || te.due then Status.due_now
  else if me.soon || te.soon then Status.due_soon
  else Status.ok

/-- The concise next-due string: available dimension phrases joined with
`" / "`, or `"next unknown"`. -/
def concise_next_of (me te : DimEval) : String :=
  let parts :=
    (match me.txt with | some t => [t.1] | none => []) ++
    (match te.txt with | some t => [t.1] | none => [])
  if parts.isEmpty then "next unknown" else String.intercalate " / " parts

/-- The verbose next-due string: available dimension phrases joined with
`" • "`, or `"next unknown"`. -/
def verbose_next_of (me te : DimEval) : String :=
  let parts :=
    (match me.txt with | some t => [t.2] | none => []) ++
    (match te.txt with | some t => [t.2] | none => [])
  if parts.isEmpty then "next unknown" else String.intercalate " • " parts

/-- app.py `evaluate_item(item, vehicle, hist)`, with the ambient session
state (interval for the item, due-soon thresholds, bulk bullets) and
`date.today()` made explicit parameters. Returns
(status, concise line, verbose line, bulk line or empty). -/
def evaluate_item (bullets : Bullets) (iv : Option Interval)
    (due_soon_miles due_soon_months : Int) (today : Date)
    (item : String) (vehicle : Vehicle) (hist : Hist) :
    Status × String × String × String :=
  let current_miles := vehicle.current_miles
  let base_miles := base_miles_of hist
  let base_date := base_date_of hist vehicle
  let serviced_today := hist.performed_this_visit
  let na_line := item ++ " — " ++ fmt_last_done hist vehicle ++ " — interval not set"
  let na_res : Status × String × String × String := (Status.na, na_line, na_line, "")
  if hist.not_equipped then
    let line := item ++ " — not equipped / not serviceable"
    (Status.na, line, line, "")
  else
    match iv with
    | none => na_res
    | some i =>
      if ivFalsy i then na_res
      else
        let interval_phrase := interval_phrase_short i
        let last_done := if serviced_today then scvd_today else fmt_last_done hist vehicle
        let me := miles_eval i base_miles current_miles due_soon_miles
        let te := time_eval i base_date today due_soon_months
        let status := status_of me te
        let concise_line :=
          item ++ " — " ++ last_done ++ " — " ++ interval_phrase ++ " — " ++ concise_next_of me te
        let verbose_line :=
          item ++ " — " ++ last_done ++ " — " ++ interval_phrase ++ " • " ++ verbose_next_of me te
        let bullet := bulletOf bullets status
        let status_txt := statusLabel status
        let interval_bulk := interval_phrase_bulk i item
        let bulk_line :=
          bullet ++ " " ++ item ++ " — " ++ status_txt ++ " " ++ last_done
            ++ " • " ++ interval_bulk
        (status, concise_line, verbose_line, bulk_line)

/-- A row of `template_submissions`. -/
structure Submission where
  submission_id : String
  created_by : String
  vin : String
  year : Int
  make : String
  model : String
  engine_raw : String
  trans_raw : String
  intervals_proposed : String
  manager_state : String
  bulk_copy : String
  vehicle_notes : String
  created_at : Nat
  updated_at : Nat
  reviewed_at : Option Nat
  reviewed_by : Option String
  review_action : Option String
  review_notes : Option String
deriving DecidableEq, Repr

/-- The snapshot `review_submission` reads from the submission row before
logging (SELECT bulk_copy, vehicle_notes, vin, year, make, model,
created_by, created_at, manager_state). -/
structure Snapshot where
  bulk_copy : String
  vehicle_notes : String
  vin : String
  year : Int
  make : String
  model : String
  created_by : String
  created_at : Nat
  manager_state : String
deriving DecidableEq, Repr

/-- The snapshot of a submission row at decision time. -/
def mkSnapshot (s : Submission) : Snapshot :=
  ⟨s.bulk_copy, s.vehicle_notes, s.vin, s.year, s.make, s.model,
   s.created_by, s.created_at, s.manager_state⟩

/-- A row of the append-only `template_reviews` table. The snapshot is
`none` when the SELECT found no submission (Python logs an empty dict). -/
structure ReviewRow where
  review_id : String
  submission_id : String
  reviewed_by : String
  action : String
  notes : String
  snapshot : Option Snapshot
  created_at : Nat
deriving DecidableEq, Repr

/-- The relational store: the two tables the workflow touches. -/
structure DB where
  submissions : List Submission
  reviews : List ReviewRow
deriving DecidableEq, Repr

/-- The `{"approve": "approved", "deny": "denied",
"request_changes": "changes_requested"}.get(action)` lookup. -/
def action_state (action : String) : Option String :=
  if action = "approve" then some "approved"
  else if action = "deny" then some "denied"
  else if action = "request_changes" then some "changes_requested"
  else none

/-- The conditional UPDATE of `review_submission` applied to one stored row:
set the terminal state and the reviewer fields only where the id matches and
`manager_state` is still `'pending'`. -/
def review_update (reviewer : String) (now : Nat)
    (submission_id new_state action notes : String) (s : Submission) : Submission :=
  if s.submission_id == submission_id && s.manager_state == "pending" then
    { s with
      manager_state := new_state
      reviewed_at := some now
      reviewed_by := some reviewer
      review_action := some action
      review_notes := some notes
      updated_at := now }
  else s

/-- app.py `review_submission(submission_id, action, notes)`: reject an
unknown action, otherwise snapshot the submission, append the review-log row
unconditionally, then apply the pending-guarded state update. The generated
review id and the clock are explicit parameters; returns the new store and
the reported message. -/
def review_submission (db : DB) (reviewer : String) (rid : String) (now : Nat)
    (submission_id action notes : String) : DB × String :=
  match action_state action with
  | none => (db, "❌ Invalid review action.")
  | some new_state =>
    let snapshot :=
      (db.submissions.find? (fun s => s.submission_id == submission_id)).map mkSnapshot
    let row : ReviewRow := ⟨rid, submission_id, reviewer, action, notes, snapshot, now⟩
    let subs := db.submissions.map (review_update reviewer now submission_id new_state action notes)
    ({ submissions := subs, reviews := db.reviews ++ [row] }, "✅ " ++ new_state.toUpper ++ ".")

/-- Python `str.strip()`: drop leading and trailing whitespace. -/
def py_strip (s : String) : String :=
  String.mk (((s.data.dropWhile Char.isWhitespace).reverse.dropWhile Char.isWhitespace).reverse)

/-- Python `str.upper()` (ASCII case mapping suffices for this app). -/
def py_upper (s : String) : String :=
  String.mk (s.data.map Char.toUpper)

/-- Python `str.lower()` (ASCII case mapping suffices for this app). -/
def py_lower (s : String) : String :=
  String.mk (s.data.map Char.toLower)

/-- app.py `save_submission_for_review(vehicle, intervals)`: a full
17-character VIN (after strip + upper) is required, else nothing is written
and a "NOT saved" reason is reported. The generated submission id, the
current user and the clock are explicit parameters; the intervals arrive
already serialized. Returns the new store and `last_db_save_msg`. -/
def save_submission_for_review (db : DB) (auth_user : String) (sid : String)
    (now : Nat) (vehicle : Vehicle) (intervals_json : String) : DB × Option String :=
  let vin := py_upper (py_strip vehicle.vin)
  if vin.length ≠ 17 then
    (db, some "Review NOT saved: full 17-character VIN required.")
  else
    let user := py_lower (py_strip auth_user)
    let sub : Submission :=
      { submission_id := sid
        created_by := user
        vin := vin
        year := vehicle.year
        make := vehicle.make
        model := vehicle.model
        engine_raw := py_strip vehicle.engine
        trans_raw := py_strip vehicle.trans
        intervals_proposed := intervals_json
        manager_state := "pending"
        bulk_copy := ""
        vehicle_notes := ""
        created_at := now
        updated_at := now
        reviewed_at := none
        reviewed_by := none
        review_action := none
        review_notes := none }
    ({ db with submissions := db.submissions ++ [sub] },
     some "✅ Saved for manager review (pending).")

/-! ## Helper lemmas -/

theorem str_ne_empty_of_right (s t : String) (ht : t ≠ "") : s ++ t ≠ "" := by
  intro h
  apply ht
  have hl := congrArg String.length h
  rw [String.length_append] at hl
  have h0 : ("" : String).length = 0 := rfl
  rw [h0] at hl
  have hlen : t.length = 0 := by omega
  cases t with
  | mk data =>
    cases data with
    | nil => rfl
    | cons c cs => simp [String.length] at hlen

theorem str_ne_empty_of_left (s t : String) (hs : s ≠ "") : s ++ t ≠ "" := by
  intro h
  apply hs
  have hl := congrArg String.length h
  rw [String.length_append] at hl
  have h0 : ("" : String).length = 0 := rfl
  rw [h0] at hl
  have hlen : s.length = 0 := by omega
  cases s with
  | mk data =>
    cases data with
    | nil => rfl
    | cons c cs => simp [String.length] at hlen

theorem evaluate_item_main_eq (bullets : Bullets) (i : Interval) (dsM dsMo : Int)
    (today : Date) (item : String) (v : Vehicle) (h : Hist)
    (hne : h.not_equipped = false) (hf : ivFalsy i = false) :
    evaluate_item bullets (some i) dsM dsMo today item v h =
      (status_of (miles_eval i (base_miles_of h) v.current_miles dsM)
         (time_eval i (base_date_of h v) today dsMo),
       item ++ " — " ++ (if h.performed_this_visit then scvd_today else fmt_last_done h v)
         ++ " — " ++ interval_phrase_short i ++ " — "
         ++ concise_next_of (miles_eval i (base_miles_of h) v.current_miles dsM)
              (time_eval i (base_date_of h v) today dsMo),
       item ++ " — " ++ (if h.performed_this_visit then scvd_today else fmt_last_done h v)
         ++ " — " ++ interval_phrase_short i ++ " • "
         ++ verbose_next_of (miles_eval i (base_miles_of h) v.current_miles dsM)
              (time_eval i (base_date_of h v) today dsMo),
       bulletOf bullets (status_of (miles_eval i (base_miles_of h) v.current_miles dsM)
           (time_eval i (base_date_of h v) today dsMo))
         ++ " " ++ item ++ " — "
         ++ statusLabel (status_of (miles_eval i (base_miles_of h) v.current_miles dsM)
              (time_eval i (base_date_of h v) today dsMo))
         ++ " " ++ (if h.performed_this_visit then scvd_today else fmt_last_done h v)
         ++ " • " ++ interval_phrase_bulk i item) := by
  simp [evaluate_item, hne, hf]

theorem status_of_ne_na (me te : DimEval) : status_of me te ≠ Status.na := by
  unfold status_of
  split
  · simp
  · split <;> simp

/-! ## C1 -/

/-- Claim C1: for every item, vehicle, interval set and history, `evaluate`
returns status `na` if and only if the item's history is marked not-equipped
or no interval is configured for the item, and exactly in those cases the
returned bulk text is the empty string. -/
theorem c1_na_iff_empty_bulk (bullets : Bullets) (iv : Option Interval)
    (dsM dsMo : Int) (today : Date) (item : String) (v : Vehicle) (h : Hist) :
    ((evaluate_item bullets iv dsM dsMo today item v h).1 = Status.na
      ↔ (h.not_equipped = true ∨ interval_missing iv = true))
    ∧ ((evaluate_item bullets iv dsM dsMo today item v h).2.2.2 = ""
      ↔ (h.not_equipped = true ∨ interval_missing iv = true)) := by
  by_cases hne : h.not_equipped = true
  · simp [evaluate_item, hne]
  · rw [Bool.not_eq_true] at hne
    cases iv with
    | none => simp [evaluate_item, hne, interval_missing]
    | some i =>
      by_cases hf : ivFalsy i = true
      · simp [evaluate_item, hne, hf, interval_missing]
      · rw [Bool.not_eq_true] at hf
        rw [evaluate_item_main_eq bullets i dsM dsMo today item v h hne hf]
        simp only [interval_missing, hne, hf, or_self]
        constructor
        · simp [status_of_ne_na]
        · constructor
          · intro hb
            exact absurd hb (str_ne_empty_of_left _ _ (str_ne_empty_of_right _ _ (by decide)))
          · intro hfalse
            exact absurd hfalse (by simp)

/-! ## Dimension-flag lemmas -/

theorem miles_eval_due_eq (i : Interval) (m b cur thr : Int) (hm : i.miles = some m) :
    (miles_eval i (some b) cur thr).due =
      if 0 < b then decide (b + m ≤ cur) else false := by
  simp only [miles_eval, hm]
  by_cases hb : 0 < b
  · rw [if_pos hb, if_pos hb]
    split <;> rfl
  · rw [if_neg hb, if_neg hb]

theorem miles_eval_soon_eq (i : Interval) (m b cur thr : Int) (hm : i.miles = some m) :
    (miles_eval i (some b) cur thr).soon =
      if 0 < b then (!decide (b + m ≤ cur) && decide (b + m - cur ≤ thr)) else false := by
  simp only [miles_eval, hm]
  by_cases hb : 0 < b
  · rw [if_pos hb, if_pos hb]
    split <;> rfl
  · rw [if_neg hb, if_neg hb]

theorem miles_eval_base_none (i : Interval) (cur thr : Int) :
    miles_eval i none cur thr = ⟨false, false, none⟩ := by
  unfold miles_eval
  cases i.miles <;> rfl

theorem miles_eval_miles_none (i : Interval) (b : Option Int) (cur thr : Int)
    (hm : i.miles = none) : miles_eval i b cur thr = ⟨false, false, none⟩ := by
  unfold miles_eval
  rw [hm]

theorem time_eval_due_eq (i : Interval) (y : Int) (bd today : Date) (thr : Int)
    (hy : i.years = some y) :
    (time_eval i (some bd) today thr).due = dateLe (add_years bd y) today := by
  simp only [time_eval, hy]
  split <;> rfl

theorem time_eval_soon_eq (i : Interval) (y : Int) (bd today : Date) (thr : Int)
    (hy : i.years = some y) :
    (time_eval i (some bd) today thr).soon =
      (!dateLe (add_years bd y) today
        && decide (months_between today (add_years bd y) ≤ thr)) := by
  simp only [time_eval, hy]
  split <;> rfl

theorem time_eval_base_none (i : Interval) (today : Date) (thr : Int) :
    time_eval i none today thr = ⟨false, false, none⟩ := by
  unfold time_eval
  cases i.years <;> rfl

theorem time_eval_years_none (i : Interval) (bd : Option Date) (today : Date) (thr : Int)
    (hy : i.years = none) : time_eval i bd today thr = ⟨false, false, none⟩ := by
  unfold time_eval
  rw [hy]

/-! ## Monotonicity lemmas -/

theorem dateLe_trans (a b c : Date) (h1 : dateLe a b = true) (h2 : dateLe b c = true) :
    dateLe a c = true := by
  simp only [dateLe, decide_eq_true_eq] at h1 h2 ⊢
  omega

theorem dateLe_month_index (a b : Date) (ha : validDate a) (hb : validDate b)
    (h : dateLe a b = true) : a.year * 12 + a.month ≤ b.year * 12 + b.month := by
  unfold validDate at ha hb
  simp only [dateLe, decide_eq_true_eq] at h
  omega

theorem miles_due_mono (i : Interval) (base : Option Int) (m1 m2 thr : Int)
    (h12 : m1 ≤ m2) (h : (miles_eval i base m1 thr).due = true) :
    (miles_eval i base m2 thr).due = true := by
  cases hm : i.miles with
  | none => rw [miles_eval_miles_none i base m1 thr hm] at h; exact absurd h (by simp)
  | some m =>
    cases base with
    | none => rw [miles_eval_base_none] at h; exact absurd h (by simp)
    | some b =>
      rw [miles_eval_due_eq i m b m1 thr hm] at h
      rw [miles_eval_due_eq i m b m2 thr hm]
      split at h
      · rw [if_pos (by assumption)]
        simp only [decide_eq_true_eq] at h ⊢
        omega
      · exact absurd h (by simp)

theorem miles_soon_mono (i : Interval) (base : Option Int) (m1 m2 thr : Int)
    (h12 : m1 ≤ m2) (h : (miles_eval i base m1 thr).soon = true) :
    (miles_eval i base m2 thr).due = true ∨ (miles_eval i base m2 thr).soon = true := by
  cases hm : i.miles with
  | none => rw [miles_eval_miles_none i base m1 thr hm] at h; exact absurd h (by simp)
  | some m =>
    cases base with
    | none => rw [miles_eval_base_none] at h; exact absurd h (by simp)
    | some b =>
      rw [miles_eval_soon_eq i m b m1 thr hm] at h
      rw [miles_eval_due_eq i m b m2 thr hm, miles_eval_soon_eq i m b m2 thr hm]
      split at h
      · rw [if_pos (by assumption), if_pos (by assumption)]
        simp only [Bool.and_eq_true, Bool.not_eq_true', decide_eq_false_iff_not,
          decide_eq_true_eq] at h ⊢
        by_cases hd : b + m ≤ m2
        · exact Or.inl hd
        · exact Or.inr ⟨hd, by omega⟩
      · exact absurd h (by simp)

theorem time_due_mono (i : Interval) (bd : Option Date) (t1 t2 : Date) (thr : Int)
    (h12 : dateLe t1 t2 = true) (h : (time_eval i bd t1 thr).due = true) :
    (time_eval i bd t2 thr).due = true := by
  cases hy : i.years with
  | none => rw [time_eval_years_none i bd t1 thr hy] at h; exact absurd h (by simp)
  | some y =>
    cases bd with
    | none => rw [time_eval_base_none] at h; exact absurd h (by simp)
    | some d =>
      rw [time_eval_due_eq i y d t1 thr hy] at h
      rw [time_eval_due_eq i y d t2 thr hy]
      exact dateLe_trans _ _ _ h h12

theorem time_soon_mono (i : Interval) (bd : Option Date) (t1 t2 : Date) (thr : Int)
    (hv1 : validDate t1) (hv2 : validDate t2) (h12 : dateLe t1 t2 = true)
    (h : (time_eval i bd t1 thr).soon = true) :
    (time_eval i bd t2 thr).due = true ∨ (time_eval i bd t2 thr).soon = true := by
  cases hy : i.years with
  | none => rw [time_eval_years_none i bd t1 thr hy] at h; exact absurd h (by simp)
  | some y =>
    cases bd with
    | none => rw [time_eval_base_none] at h; exact absurd h (by simp)
    | some d =>
      rw [time_eval_soon_eq i y d t1 thr hy] at h
      rw [time_eval_due_eq i y d t2 thr hy, time_eval_soon_eq i y d t2 thr hy]
      simp only [Bool.and_eq_true, Bool.not_eq_true'] at h ⊢
      by_cases hd : dateLe (add_years d y) t2 = true
      · exact Or.inl hd
      · refine Or.inr ⟨by simp [hd], ?_⟩
        have hmono := dateLe_month_index t1 t2 hv1 hv2 h12
        simp only [decide_eq_true_eq] at h ⊢
        unfold months_between at h ⊢
        omega

theorem urgency_status_of_mono (me1 te1 me2 te2 : DimEval)
    (hd : me1.due = true ∨ te1.due = true → me2.due = true ∨ te2.due = true)
    (hs : me1.soon = true ∨ te1.soon = true →
      me2.due = true ∨ te2.due = true ∨ me2.soon = true ∨ te2.soon = true) :
    urgency (status_of me1 te1) ≤ urgency (status_of me2 te2) := by
  unfold status_of
  rcases me1 with ⟨d1, s1, x1⟩
  rcases te1 with ⟨d1t, s1t, x1t⟩
  rcases me2 with ⟨d2, s2, x2⟩
  rcases te2 with ⟨d2t, s2t, x2t⟩
  simp only at hd hs ⊢
  cases d1 <;> cases d1t <;> cases d2 <;> cases d2t <;> cases s1 <;> cases s1t
    <;> cases s2 <;> cases s2t <;> simp_all [urgency]

/-! ## C3 -/

/-- Claim C3: holding the item, interval, history, thresholds and today
fixed, raising the current mileage can only keep or raise the urgency of the
returned status (ok < due_soon < due_now, never backward), and likewise
advancing today's date while holding current mileage fixed. -/
theorem c3_status_monotone (bullets : Bullets) (iv : Option Interval) (dsM dsMo : Int)
    (today t1 t2 : Date) (item : String) (v : Vehicle) (h : Hist) (m1 m2 : Int)
    (hm : m1 ≤ m2) (ht : dateLe t1 t2 = true) (hv1 : validDate t1) (hv2 : validDate t2) :
    urgency (evaluate_item bullets iv dsM dsMo today item { v with current_miles := m1 } h).1
      ≤ urgency (evaluate_item bullets iv dsM dsMo today item { v with current_miles := m2 } h).1
    ∧ urgency (evaluate_item bullets iv dsM dsMo t1 item v h).1
      ≤ urgency (evaluate_item bullets iv dsM dsMo t2 item v h).1 := by
  constructor
  · by_cases hne : h.not_equipped = true
    · simp [evaluate_item, hne]
    · rw [Bool.not_eq_true] at hne
      cases iv with
      | none => simp [evaluate_item, hne]
      | some i =>
        by_cases hf : ivFalsy i = true
        · simp [evaluate_item, hne, hf]
        · rw [Bool.not_eq_true] at hf
          rw [evaluate_item_main_eq bullets i dsM dsMo today item
                { v with current_miles := m1 } h hne hf,
              evaluate_item_main_eq bullets i dsM dsMo today item
                { v with current_miles := m2 } h hne hf]
          apply urgency_status_of_mono
          · rintro (hd | hd)
            · exact Or.inl (miles_due_mono i (base_miles_of h) m1 m2 dsM hm hd)
            · exact Or.inr hd
          · rintro (hs' | hs')
            · rcases miles_soon_mono i (base_miles_of h) m1 m2 dsM hm hs' with hd | hsn
              · exact Or.inl hd
              · exact Or.inr (Or.inr (Or.inl hsn))
            · exact Or.inr (Or.inr (Or.inr hs'))
  · by_cases hne : h.not_equipped = true
    · simp [evaluate_item, hne]
    · rw [Bool.not_eq_true] at hne
      cases iv with
      | none => simp [evaluate_item, hne]
      | some i =>
        by_cases hf : ivFalsy i = true
        · simp [evaluate_item, hne, hf]
        · rw [Bool.not_eq_true] at hf
          rw [evaluate_item_main_eq bullets i dsM dsMo t1 item v h hne hf,
              evaluate_item_main_eq bullets i dsM dsMo t2 item v h hne hf]
          apply urgency_status_of_mono
          · rintro (hd | hd)
            · exact Or.inl hd
            · exact Or.inr (time_due_mono i (base_date_of h v) t1 t2 dsMo ht hd)
          · rintro (hs' | hs')
            · exact Or.inr (Or.inr (Or.inl hs'))
            · rcases time_soon_mono i (base_date_of h v) t1 t2 dsMo hv1 hv2 ht hs' with hd | hsn
              · exact Or.inr (Or.inl hd)
              · exact Or.inr (Or.inr (Or.inr hsn))

/-- Witness for C3 at a concrete input: mileage 44800 to 45200 and today
2024-05-01 to 2024-07-01 for the spec's Engine Oil scenario. -/
theorem c3_status_monotone_witness :
    urgency (evaluate_item ⟨"•", "?", "–", "×"⟩ (some ⟨some 1, some 5000⟩) 1500 6 ⟨2024, 5, 1⟩
        "Engine Oil"
        { (⟨"", 2021, "BMW", "330i", 44800, some ⟨2020, 6, 1⟩, "", "", ""⟩ : Vehicle) with
          current_miles := 44800 }
        ⟨true, some 40000, some ⟨2023, 6, 1⟩, false, false⟩).1
    ≤ urgency (evaluate_item ⟨"•", "?", "–", "×"⟩ (some ⟨some 1, some 5000⟩) 1500 6 ⟨2024, 5, 1⟩
        "Engine Oil"
        { (⟨"", 2021, "BMW", "330i", 44800, some ⟨2020, 6, 1⟩, "", "", ""⟩ : Vehicle) with
          current_miles := 45200 }
        ⟨true, some 40000, some ⟨2023, 6, 1⟩, false, false⟩).1
    ∧ urgency (evaluate_item ⟨"•", "?", "–", "×"⟩ (some ⟨some 1, some 5000⟩) 1500 6 ⟨2024, 5, 1⟩
        "Engine Oil" ⟨"", 2021, "BMW", "330i", 44800, some ⟨2020, 6, 1⟩, "", "", ""⟩
        ⟨true, some 40000, some ⟨2023, 6, 1⟩, false, false⟩).1
      ≤ urgency (evaluate_item ⟨"•", "?", "–", "×"⟩ (some ⟨some 1, some 5000⟩) 1500 6 ⟨2024, 7, 1⟩
        "Engine Oil" ⟨"", 2021, "BMW", "330i", 44800, some ⟨2020, 6, 1⟩, "", "", ""⟩
        ⟨true, some 40000, some ⟨2023, 6, 1⟩, false, false⟩).1 :=
  c3_status_monotone ⟨"•", "?", "–", "×"⟩ (some ⟨some 1, some 5000⟩) 1500 6
    ⟨2024, 5, 1⟩ ⟨2024, 5, 1⟩ ⟨2024, 7, 1⟩ "Engine Oil"
    ⟨"", 2021, "BMW", "330i", 44800, some ⟨2020, 6, 1⟩, "", "", ""⟩
    ⟨true, some 40000, some ⟨2023, 6, 1⟩, false, false⟩ 44800 45200
    (by decide) (by decide) (by decide) (by decide)

theorem evaluate_item_fst (bullets : Bullets) (i : Interval) (dsM dsMo : Int)
    (today : Date) (item : String) (v : Vehicle) (h : Hist)
    (hne : h.not_equipped = false) (hf : ivFalsy i = false) :
    (evaluate_item bullets (some i) dsM dsMo today item v h).1 =
      status_of (miles_eval i (base_miles_of h) v.current_miles dsM)
        (time_eval i (base_date_of h v) today dsMo) := by
  rw [evaluate_item_main_eq bullets i dsM dsMo today item v h hne hf]

/-! ## C2 -/

/-- Claim C2: inclusive boundaries of the mileage check. With a miles
interval, a positive baseline mileage and a time dimension that is neither
due nor soon, current mileage equal to baseline + interval is due_now
(inclusive), remaining miles equal to the due-soon threshold (positive
remaining) is due_soon, and remaining equal to threshold + 1 is ok. -/
theorem c2_mileage_boundaries (bullets : Bullets) (i : Interval) (dsM dsMo : Int)
    (today : Date) (item : String) (v : Vehicle) (h : Hist) (M B : Int)
    (hne : h.not_equipped = false)
    (hm : i.miles = some M)
    (hb : base_miles_of h = some B)
    (hbpos : 0 < B)
    (htd : (time_eval i (base_date_of h v) today dsMo).due = false)
    (hts : (time_eval i (base_date_of h v) today dsMo).soon = false)
    (hthr : 0 ≤ dsM) :
    (evaluate_item bullets (some i) dsM dsMo today item
        { v with current_miles := B + M } h).1 = Status.due_now
    ∧ (0 < dsM →
        (evaluate_item bullets (some i) dsM dsMo today item
          { v with current_miles := B + M - dsM } h).1 = Status.due_soon)
    ∧ (evaluate_item bullets (some i) dsM dsMo today item
        { v with current_miles := B + M - (dsM + 1) } h).1 = Status.ok := by
  have hf : ivFalsy i = false := by simp [ivFalsy, hm]
  refine ⟨?_, ?_, ?_⟩
  · rw [evaluate_item_fst bullets i dsM dsMo today item
      { v with current_miles := B + M } h hne hf]
    show status_of (miles_eval i (base_miles_of h) (B + M) dsM)
        (time_eval i (base_date_of h v) today dsMo) = Status.due_now
    have h1 : (miles_eval i (base_miles_of h) (B + M) dsM).due = true := by
      rw [hb, miles_eval_due_eq i M B (B + M) dsM hm, if_pos hbpos]
      simp only [decide_eq_true_eq]
      omega
    unfold status_of
    rw [h1]
    simp
  · intro hds
    rw [evaluate_item_fst bullets i dsM dsMo today item
      { v with current_miles := B + M - dsM } h hne hf]
    show status_of (miles_eval i (base_miles_of h) (B + M - dsM) dsM)
        (time_eval i (base_date_of h v) today dsMo) = Status.due_soon
    have h1 : (miles_eval i (base_miles_of h) (B + M - dsM) dsM).due = false := by
      rw [hb, miles_eval_due_eq i M B (B + M - dsM) dsM hm, if_pos hbpos]
      simp only [decide_eq_false_iff_not]
      omega
    have h2 : (miles_eval i (base_miles_of h) (B + M - dsM) dsM).soon = true := by
      rw [hb, miles_eval_soon_eq i M B (B + M - dsM) dsM hm, if_pos hbpos]
      simp only [Bool.and_eq_true, Bool.not_eq_true', decide_eq_false_iff_not,
        decide_eq_true_eq]
      constructor
      · omega
      · omega
    unfold status_of
    rw [h1, h2, htd, hts]
    simp
  · rw [evaluate_item_fst bullets i dsM dsMo today item
      { v with current_miles := B + M - (dsM + 1) } h hne hf]
    show status_of (miles_eval i (base_miles_of h) (B + M - (dsM + 1)) dsM)
        (time_eval i (base_date_of h v) today dsMo) = Status.ok
    have h1 : (miles_eval i (base_miles_of h) (B + M - (dsM + 1)) dsM).due = false := by
      rw [hb, miles_eval_due_eq i M B (B + M - (dsM + 1)) dsM hm, if_pos hbpos]
      simp only [decide_eq_false_iff_not]
      omega
    have h2 : (miles_eval i (base_miles_of h) (B + M - (dsM + 1)) dsM).soon = false := by
      rw [hb, miles_eval_soon_eq i M B (B + M - (dsM + 1)) dsM hm, if_pos hbpos]
      simp only [Bool.and_eq_false_iff, Bool.not_eq_false', decide_eq_true_eq,
        decide_eq_false_iff_not]
      right
      omega
    unfold status_of
    rw [h1, h2, htd, hts]
    simp


/-- Witness for C2: Engine Oil with a 5000-mile interval, baseline 40000,
threshold 1500, no time dimension (no stored date): due_now at 45000,
due_soon at 43500, ok at 43499. -/
theorem c2_mileage_boundaries_witness :
    (evaluate_item ⟨"•", "?", "–", "×"⟩ (some ⟨some 1, some 5000⟩) 1500 6 ⟨2024, 5, 1⟩
        "Engine Oil"
        { (⟨"", 2021, "BMW", "330i", 0, none, "", "", ""⟩ : Vehicle) with
          current_miles := 40000 + 5000 }
        ⟨true, some 40000, none, false, false⟩).1 = Status.due_now
    ∧ ((0 : Int) < 1500 →
        (evaluate_item ⟨"•", "?", "–", "×"⟩ (some ⟨some 1, some 5000⟩) 1500 6 ⟨2024, 5, 1⟩
          "Engine Oil"
          { (⟨"", 2021, "BMW", "330i", 0, none, "", "", ""⟩ : Vehicle) with
            current_miles := 40000 + 5000 - 1500 }
          ⟨true, some 40000, none, false, false⟩).1 = Status.due_soon)
    ∧ (evaluate_item ⟨"•", "?", "–", "×"⟩ (some ⟨some 1, some 5000⟩) 1500 6 ⟨2024, 5, 1⟩
        "Engine Oil"
        { (⟨"", 2021, "BMW", "330i", 0, none, "", "", ""⟩ : Vehicle) with
          current_miles := 40000 + 5000 - (1500 + 1) }
        ⟨true, some 40000, none, false, false⟩).1 = Status.ok :=
  c2_mileage_boundaries ⟨"•", "?", "–", "×"⟩ ⟨some 1, some 5000⟩ 1500 6 ⟨2024, 5, 1⟩
    "Engine Oil" ⟨"", 2021, "BMW", "330i", 0, none, "", "", ""⟩
    ⟨true, some 40000, none, false, false⟩ 5000 40000
    rfl rfl rfl (by decide) rfl rfl (by decide)

theorem miles_eval_nonpos_base (i : Interval) (b : Option Int) (cur thr : Int)
    (hb : b.getD 0 ≤ 0) :
    (miles_eval i b cur thr).due = false ∧ (miles_eval i b cur thr).soon = false := by
  cases hm : i.miles with
  | none => rw [miles_eval_miles_none i b cur thr hm]; exact ⟨rfl, rfl⟩
  | some m =>
    cases b with
    | none => rw [miles_eval_base_none]; exact ⟨rfl, rfl⟩
    | some l =>
      simp only [Option.getD_some] at hb
      rw [miles_eval_due_eq i m l cur thr hm, miles_eval_soon_eq i m l cur thr hm]
      rw [if_neg (by omega), if_neg (by omega)]
      exact ⟨rfl, rfl⟩

/-! ## C7 -/

/-- Claim C7: with history that is not-Known, or Known with a zero/unset
stored mileage (and not not-equipped, any configured interval), the mileage
check is never performed: the status is independent of the vehicle's current
odometer reading and is determined by the time check alone. -/
theorem c7_time_only_without_positive_baseline (bullets : Bullets) (i : Interval)
    (dsM dsMo : Int) (today : Date) (item : String) (v : Vehicle) (h : Hist)
    (m1 m2 : Int)
    (hne : h.not_equipped = false)
    (hf : ivFalsy i = false)
    (hbase : h.known = false ∨ h.last_miles = none ∨ h.last_miles.getD 0 ≤ 0) :
    (evaluate_item bullets (some i) dsM dsMo today item { v with current_miles := m1 } h).1
      = (evaluate_item bullets (some i) dsM dsMo today item { v with current_miles := m2 } h).1
    ∧ (evaluate_item bullets (some i) dsM dsMo today item { v with current_miles := m1 } h).1
      = (if (time_eval i (base_date_of h v) today dsMo).due then Status.due_now
         else if (time_eval i (base_date_of h v) today dsMo).soon then Status.due_soon
         else Status.ok) := by
  have hb : (base_miles_of h).getD 0 ≤ 0 := by
    unfold base_miles_of
    rcases hbase with h1 | h1 | h1
    · simp [h1]
    · by_cases hk : h.known = true <;> simp [hk, h1]
    · by_cases hk : h.known = true <;> simp [hk, h1]
  have key : ∀ m : Int,
      (evaluate_item bullets (some i) dsM dsMo today item { v with current_miles := m } h).1
        = (if (time_eval i (base_date_of h v) today dsMo).due then Status.due_now
           else if (time_eval i (base_date_of h v) today dsMo).soon then Status.due_soon
           else Status.ok) := by
    intro m
    rw [evaluate_item_fst bullets i dsM dsMo today item { v with current_miles := m } h hne hf]
    show status_of (miles_eval i (base_miles_of h) m dsM)
        (time_eval i (base_date_of h v) today dsMo)
      = (if (time_eval i (base_date_of h v) today dsMo).due then Status.due_now
         else if (time_eval i (base_date_of h v) today dsMo).soon then Status.due_soon
         else Status.ok)
    obtain ⟨hd, hs⟩ := miles_eval_nonpos_base i (base_miles_of h) m dsM hb
    unfold status_of
    rw [hd, hs]
    simp
  exact ⟨(key m1).trans (key m2).symm, key m1⟩

/-- Witness for C7: the spec's Coolant scenario (no history, production date
2020-06-01, 4-year interval): the status is due_now at odometer 0 and at
999999 alike, and equals the time-check-only status. -/
theorem c7_time_only_without_positive_baseline_witness :
    (evaluate_item ⟨"•", "?", "–", "×"⟩ (some ⟨some 4, none⟩) 5000 6 ⟨2024, 7, 1⟩ "Coolant"
        { (⟨"", 2020, "BMW", "X5", 0, some ⟨2020, 6, 1⟩, "", "", ""⟩ : Vehicle) with
          current_miles := 0 }
        ⟨false, none, none, false, false⟩).1
      = (evaluate_item ⟨"•", "?", "–", "×"⟩ (some ⟨some 4, none⟩) 5000 6 ⟨2024, 7, 1⟩ "Coolant"
        { (⟨"", 2020, "BMW", "X5", 0, some ⟨2020, 6, 1⟩, "", "", ""⟩ : Vehicle) with
          current_miles := 999999 }
        ⟨false, none, none, false, false⟩).1
    ∧ (evaluate_item ⟨"•", "?", "–", "×"⟩ (some ⟨some 4, none⟩) 5000 6 ⟨2024, 7, 1⟩ "Coolant"
        { (⟨"", 2020, "BMW", "X5", 0, some ⟨2020, 6, 1⟩, "", "", ""⟩ : Vehicle) with
          current_miles := 0 }
        ⟨false, none, none, false, false⟩).1
      = (if (time_eval ⟨some 4, none⟩
              (base_date_of ⟨false, none, none, false, false⟩
                ⟨"", 2020, "BMW", "X5", 0, some ⟨2020, 6, 1⟩, "", "", ""⟩)
              ⟨2024, 7, 1⟩ 6).due then Status.due_now
         else if (time_eval ⟨some 4, none⟩
              (base_date_of ⟨false, none, none, false, false⟩
                ⟨"", 2020, "BMW", "X5", 0, some ⟨2020, 6, 1⟩, "", "", ""⟩)
              ⟨2024, 7, 1⟩ 6).soon then Status.due_soon
         else Status.ok) :=
  c7_time_only_without_positive_baseline ⟨"•", "?", "–", "×"⟩ ⟨some 4, none⟩ 5000 6
    ⟨2024, 7, 1⟩ "Coolant" ⟨"", 2020, "BMW", "X5", 0, some ⟨2020, 6, 1⟩, "", "", ""⟩
    ⟨false, none, none, false, false⟩ 0 999999 rfl (by decide) (Or.inl rfl)

/-! ## C8 -/

/-- Claim C8: for every valid baseline date and positive year count, the due
date computed by `add_years` is valid, lands in the year shifted by exactly
that count, keeps the month and day except that a Feb 29 baseline shifted to
a non-leap year lands on Feb 28; and `months_between` of two dates in the
same calendar month is exactly 0, never negative. -/
theorem c8_add_years_months_between (d : Date) (y : Int) (t u : Date)
    (hv : validDate d) (hy : 0 < y) (hty : t.year = u.year) (htm : t.month = u.month) :
    validDate (add_years d y)
    ∧ (add_years d y).year = d.year + y
    ∧ (d.month = 2 ∧ d.day = 29 ∧ isLeap (d.year + y) = false →
        add_years d y = ⟨d.year + y, 2, 28⟩)
    ∧ (¬ (d.month = 2 ∧ d.day = 29 ∧ isLeap (d.year + y) = false) →
        (add_years d y).month = d.month ∧ (add_years d y).day = d.day)
    ∧ months_between t u = 0 := by
  have hmb : months_between t u = 0 := by
    unfold months_between
    omega
  obtain ⟨hm1, hm2, hd1, hd4⟩ := hv
  unfold add_years
  by_cases hc : daysInMonth (d.year + y) d.month < d.day
  · rw [if_pos hc]
    have hm2eq : d.month = 2 := by
      by_contra hmne
      have e1 : daysInMonth (d.year + y) d.month = daysInMonth d.year d.month := by
        unfold daysInMonth
        rw [if_neg hmne, if_neg hmne]
      omega
    have hle29 : d.day ≤ 29 := by
      have h4' := hd4
      rw [hm2eq] at h4'
      unfold daysInMonth at h4'
      rw [if_pos rfl] at h4'
      split at h4' <;> omega
    have hnl : isLeap (d.year + y) = false := by
      cases hl : isLeap (d.year + y) with
      | false => rfl
      | true =>
        exfalso
        have e2 : daysInMonth (d.year + y) d.month = 29 := by
          rw [hm2eq]
          unfold daysInMonth
          rw [if_pos rfl, if_pos hl]
        omega
    have hd29 : d.day = 29 := by
      have e3 : daysInMonth (d.year + y) d.month = 28 := by
        rw [hm2eq]
        unfold daysInMonth
        simp [hnl]
      omega
    refine ⟨?_, rfl, fun _ => rfl, fun hcontra => absurd ⟨hm2eq, hd29, hnl⟩ hcontra, hmb⟩
    refine ⟨show (1 : Int) ≤ 2 by norm_num, show (2 : Int) ≤ 12 by norm_num,
      show (1 : Int) ≤ 28 by norm_num, ?_⟩
    show (28 : Int) ≤ daysInMonth (d.year + y) 2
    unfold daysInMonth
    rw [if_pos rfl]
    split <;> omega
  · rw [if_neg hc]
    refine ⟨⟨hm1, hm2, hd1, ?_⟩, rfl, ?_, fun _ => ⟨rfl, rfl⟩, hmb⟩
    · show d.day ≤ daysInMonth (d.year + y) d.month
      omega
    · intro hcontra
      obtain ⟨a, b, c⟩ := hcontra
      exfalso
      apply hc
      have e4 : daysInMonth (d.year + y) 2 = 28 := by
        unfold daysInMonth
        simp [c]
      rw [a, b]
      omega

/-- Witness for C8: Feb 29 2020 shifted 1 year lands on Feb 28 2021; June
2024 dates are 0 months apart. -/
theorem c8_add_years_months_between_witness :
    validDate (add_years ⟨2020, 2, 29⟩ 1)
    ∧ (add_years ⟨2020, 2, 29⟩ 1).year = (⟨2020, 2, 29⟩ : Date).year + 1
    ∧ ((⟨2020, 2, 29⟩ : Date).month = 2 ∧ (⟨2020, 2, 29⟩ : Date).day = 29
        ∧ isLeap ((⟨2020, 2, 29⟩ : Date).year + 1) = false →
        add_years ⟨2020, 2, 29⟩ 1 = ⟨(⟨2020, 2, 29⟩ : Date).year + 1, 2, 28⟩)
    ∧ (¬ ((⟨2020, 2, 29⟩ : Date).month = 2 ∧ (⟨2020, 2, 29⟩ : Date).day = 29
        ∧ isLeap ((⟨2020, 2, 29⟩ : Date).year + 1) = false) →
        (add_years ⟨2020, 2, 29⟩ 1).month = (⟨2020, 2, 29⟩ : Date).month
        ∧ (add_years ⟨2020, 2, 29⟩ 1).day = (⟨2020, 2, 29⟩ : Date).day)
    ∧ months_between ⟨2024, 6, 1⟩ ⟨2024, 6, 30⟩ = 0 :=
  c8_add_years_months_between ⟨2020, 2, 29⟩ 1 ⟨2024, 6, 1⟩ ⟨2024, 6, 30⟩
    (by decide) (by decide) rfl rfl

/-! ## C6 -/

/-- Counterexample to C6 as stated: an item whose history carries the
performed-this-visit flag, is not not-equipped, and has no interval
configured renders its na line from `fmt_last_done` (here the
production-date-derived text), not from the serviced-today marker. -/
theorem c6_counterexample_no_interval_branch :
    (evaluate_item ⟨"•", "?", "–", "×"⟩ none 5000 6 ⟨2024, 7, 1⟩ "Coolant"
        ⟨"", 2020, "BMW", "X5", 50000, none, "", "", ""⟩
        ⟨false, none, none, false, true⟩).2.1
      = "Coolant — no history (baseline unknown) — interval not set"
    ∧ ¬ ∃ r : String,
        (evaluate_item ⟨"•", "?", "–", "×"⟩ none 5000 6 ⟨2024, 7, 1⟩ "Coolant"
          ⟨"", 2020, "BMW", "X5", 50000, none, "", "", ""⟩
          ⟨false, none, none, false, true⟩).2.1
        = "Coolant" ++ " — " ++ scvd_today ++ " — " ++ r := by
  constructor
  · rfl
  · intro hex
    obtain ⟨r, hr⟩ := hex
    have h1 : ("Coolant — no history (baseline unknown) — interval not set" : String)
        = "Coolant" ++ " — " ++ scvd_today ++ " — " ++ r := by
      rw [← hr]
      rfl
    have h2 : ("Coolant — no history (baseline unknown) — interval not set" : String).data
        = ("Coolant — SCV’D TODAY — " : String).data ++ r.data :=
      congrArg String.data h1
    have h3 : ("Coolant — SCV’D TODAY — " : String).data
        <+: ("Coolant — no history (baseline unknown) — interval not set" : String).data :=
      ⟨r.data, h2.symm⟩
    have h4 := List.isPrefixOf_iff_prefix.mpr h3
    exact absurd h4 (by decide)

/-- Claim C6 as amended: for every item whose history carries the
performed-this-visit flag and is not marked not-equipped AND whose interval
is configured, all three rendered lines show the fixed serviced-today marker
as the last-done text; in the no-interval na branch the flag is ignored and
the last-done text comes from `fmt_last_done`. -/
theorem c6_serviced_today_marker (bullets : Bullets) (i : Interval) (dsM dsMo : Int)
    (today : Date) (item : String) (v : Vehicle) (h : Hist)
    (hp : h.performed_this_visit = true) (hne : h.not_equipped = false)
    (hf : ivFalsy i = false) :
    ∃ r1 r2 p r3,
      (evaluate_item bullets (some i) dsM dsMo today item v h).2.1
        = item ++ " — " ++ scvd_today ++ " — " ++ r1
      ∧ (evaluate_item bullets (some i) dsM dsMo today item v h).2.2.1
        = item ++ " — " ++ scvd_today ++ " — " ++ r2
      ∧ (evaluate_item bullets (some i) dsM dsMo today item v h).2.2.2
        = p ++ " " ++ scvd_today ++ " • " ++ r3 := by
  rw [evaluate_item_main_eq bullets i dsM dsMo today item v h hne hf]
  refine ⟨interval_phrase_short i ++ " — "
      ++ concise_next_of (miles_eval i (base_miles_of h) v.current_miles dsM)
        (time_eval i (base_date_of h v) today dsMo),
    interval_phrase_short i ++ " • "
      ++ verbose_next_of (miles_eval i (base_miles_of h) v.current_miles dsM)
        (time_eval i (base_date_of h v) today dsMo),
    bulletOf bullets (status_of (miles_eval i (base_miles_of h) v.current_miles dsM)
        (time_eval i (base_date_of h v) today dsMo))
      ++ " " ++ item ++ " — "
      ++ statusLabel (status_of (miles_eval i (base_miles_of h) v.current_miles dsM)
        (time_eval i (base_date_of h v) today dsMo)),
    interval_phrase_bulk i item, ?_, ?_, ?_⟩
    <;> simp [hp, String.append_assoc]

/-- Witness for the amended C6: Engine Oil serviced this visit with a
configured interval shows the marker in all three lines. -/
theorem c6_serviced_today_marker_witness :
    ∃ r1 r2 p r3,
      (evaluate_item ⟨"•", "?", "–", "×"⟩ (some ⟨some 1, some 5000⟩) 1500 6 ⟨2024, 5, 1⟩
          "Engine Oil" ⟨"", 2021, "BMW", "330i", 44800, some ⟨2020, 6, 1⟩, "", "", ""⟩
          ⟨true, some 40000, some ⟨2023, 6, 1⟩, false, true⟩).2.1
        = "Engine Oil" ++ " — " ++ scvd_today ++ " — " ++ r1
      ∧ (evaluate_item ⟨"•", "?", "–", "×"⟩ (some ⟨some 1, some 5000⟩) 1500 6 ⟨2024, 5, 1⟩
          "Engine Oil" ⟨"", 2021, "BMW", "330i", 44800, some ⟨2020, 6, 1⟩, "", "", ""⟩
          ⟨true, some 40000, some ⟨2023, 6, 1⟩, false, true⟩).2.2.1
        = "Engine Oil" ++ " — " ++ scvd_today ++ " — " ++ r2
      ∧ (evaluate_item ⟨"•", "?", "–", "×"⟩ (some ⟨some 1, some 5000⟩) 1500 6 ⟨2024, 5, 1⟩
          "Engine Oil" ⟨"", 2021, "BMW", "330i", 44800, some ⟨2020, 6, 1⟩, "", "", ""⟩
          ⟨true, some 40000, some ⟨2023, 6, 1⟩, false, true⟩).2.2.2
        = p ++ " " ++ scvd_today ++ " • " ++ r3 :=
  c6_serviced_today_marker ⟨"•", "?", "–", "×"⟩ ⟨some 1, some 5000⟩ 1500 6 ⟨2024, 5, 1⟩
    "Engine Oil" ⟨"", 2021, "BMW", "330i", 44800, some ⟨2020, 6, 1⟩, "", "", ""⟩
    ⟨true, some 40000, some ⟨2023, 6, 1⟩, false, true⟩ rfl rfl rfl

theorem intercalate_single (s x : String) : String.intercalate s [x] = x := by
  simp [String.intercalate, String.intercalate.go]

theorem intercalate_pair (s x y : String) : String.intercalate s [x, y] = x ++ s ++ y := by
  simp [String.intercalate, String.intercalate.go]

/-! ## C9 -/

/-- Claim C9: bulk interval-phrase rendering. "Engine Oil" phrases start
with "DUE " and render a miles value that is an exact multiple of 1000 and
at most 15000 in K-form (the spec's example giving "DUE 1 yr / 5K"); every
other item's phrase starts with "interval " and renders miles with comma
grouping (the spec's example giving "interval 4 yr"). -/
theorem c9_bulk_interval_phrase :
    interval_phrase_bulk ⟨some 1, some 5000⟩ "Engine Oil" = "DUE 1 yr / 5K"
    ∧ interval_phrase_bulk ⟨some 4, none⟩ "Coolant" = "interval 4 yr"
    ∧ (∀ (i : Interval) (item : String), ivFalsy i = false →
        (item = "Engine Oil" → ∃ r, interval_phrase_bulk i item = "DUE " ++ r)
        ∧ (item ≠ "Engine Oil" → ∃ r, interval_phrase_bulk i item = "interval " ++ r))
    ∧ (∀ y m : Int, m % 1000 = 0 → m ≤ 15000 →
        interval_phrase_bulk ⟨some y, some m⟩ "Engine Oil"
          = "DUE " ++ (toString y ++ " yr") ++ " / " ++ (toString (m / 1000) ++ "K"))
    ∧ (∀ (y m : Int) (item : String), item ≠ "Engine Oil" →
        interval_phrase_bulk ⟨some y, some m⟩ item
          = "interval " ++ (toString y ++ " yr") ++ " / " ++ (intComma m ++ " mi")) := by
  refine ⟨rfl, rfl, ?_, ?_, ?_⟩
  · intro i item hfalsy
    constructor
    · intro hoil
      subst hoil
      rcases hy : i.years with _ | yv <;> rcases hmm : i.miles with _ | mv
      · exfalso
        simp [ivFalsy, hy, hmm] at hfalsy
      · simp [interval_phrase_bulk, hy, hmm, intercalate_single]
      · simp [interval_phrase_bulk, hy, hmm, intercalate_single]
      · simp [interval_phrase_bulk, hy, hmm, intercalate_pair]
    · intro hother
      rcases hy : i.years with _ | yv <;> rcases hmm : i.miles with _ | mv
      · exfalso
        simp [ivFalsy, hy, hmm] at hfalsy
      · simp [interval_phrase_bulk, hy, hmm, hother, intercalate_single]
      · simp [interval_phrase_bulk, hy, hmm, hother, intercalate_single]
      · simp [interval_phrase_bulk, hy, hmm, hother, intercalate_pair]
  · intro y m h1 h2
    simp [interval_phrase_bulk, h1, h2, intercalate_pair, String.append_assoc]
  · intro y m item hitem
    simp [interval_phrase_bulk, hitem, intercalate_pair, String.append_assoc]

/-! ## C5 -/

/-- Claim C5: for every vehicle whose VIN, after trimming and upper-casing,
is not exactly 17 characters, submission creation fails before any
persistence attempt: the store is unchanged (no template_submissions row)
and the reported message is the "not saved" VIN-length reason. -/
theorem c5_short_vin_not_saved (db : DB) (user sid : String) (now : Nat)
    (vehicle : Vehicle) (intervals_json : String)
    (hvin : (py_upper (py_strip vehicle.vin)).length ≠ 17) :
    save_submission_for_review db user sid now vehicle intervals_json
      = (db, some "Review NOT saved: full 17-character VIN required.") := by
  unfold save_submission_for_review
  rw [if_pos hvin]

/-- Witness for C5: a 16-character VIN is rejected and writes nothing. -/
theorem c5_short_vin_not_saved_witness :
    save_submission_for_review ⟨[], []⟩ "andrew" "s1" 5
        ⟨"WBA3A5C55DF35640", 2013, "BMW", "328i", 60000, none, "", "", ""⟩ "{}"
      = (⟨[], []⟩, some "Review NOT saved: full 17-character VIN required.") :=
  c5_short_vin_not_saved ⟨[], []⟩ "andrew" "s1" 5
    ⟨"WBA3A5C55DF35640", 2013, "BMW", "328i", 60000, none, "", "", ""⟩ "{}" (by decide)

/-! ## C10 -/

/-- Claim C10: every action other than approve / deny / request_changes is
rejected with the invalid-action error before touching storage: the store is
returned unchanged, so no review-log row is inserted and no submission field
changes. -/
theorem c10_invalid_action_rejected (db : DB) (reviewer rid : String) (now : Nat)
    (sid action notes : String)
    (h1 : action ≠ "approve") (h2 : action ≠ "deny") (h3 : action ≠ "request_changes") :
    review_submission db reviewer rid now sid action notes
      = (db, "❌ Invalid review action.") := by
  unfold review_submission action_state
  rw [if_neg h1, if_neg h2, if_neg h3]

/-- Witness for C10: the unknown action "publish" changes nothing. -/
theorem c10_invalid_action_rejected_witness :
    review_submission ⟨[], []⟩ "erin" "r1" 7 "s1" "publish" "oops"
      = (⟨[], []⟩, "❌ Invalid review action.") :=
  c10_invalid_action_rejected ⟨[], []⟩ "erin" "r1" 7 "s1" "publish" "oops"
    (by decide) (by decide) (by decide)

/-! ## C4 -/

theorem action_state_ne_pending (a ns : String) (h : action_state a = some ns) :
    ns ≠ "pending" := by
  unfold action_state at h
  split at h
  · simp only [Option.some.injEq] at h
    subst h
    decide
  · split at h
    · simp only [Option.some.injEq] at h
      subst h
      decide
    · split at h
      · simp only [Option.some.injEq] at h
        subst h
        decide
      · simp at h

theorem review_submission_valid (db : DB) (r rid : String) (now : Nat)
    (sid a notes ns : String) (ha : action_state a = some ns) :
    review_submission db r rid now sid a notes
      = ({ submissions := db.submissions.map (review_update r now sid ns a notes),
           reviews := db.reviews ++ [⟨rid, sid, r, a, notes,
             (db.submissions.find? (fun x => x.submission_id == sid)).map mkSnapshot, now⟩] },
         "✅ " ++ ns.toUpper ++ ".") := by
  unfold review_submission
  rw [ha]

/-- Claim C4: a review action with a valid action always appends exactly one
review-log row recording reviewer, action, notes and the submission snapshot
regardless of the submission's state; the submission table changes only by
the pending-guarded update, which is the identity on any non-pending row;
and on a pending row the first of two review attempts sets its terminal
state while the second leaves the row entirely unchanged (both attempts
still logging a row). -/
theorem c4_review_log_and_pending_guard (db : DB) (r1 r2 rid1 rid2 : String)
    (n1 n2 : Nat) (sid a1 a2 notes1 notes2 ns1 ns2 : String) (s s0 : Submission)
    (ha1 : action_state a1 = some ns1) (ha2 : action_state a2 = some ns2) :
    (review_submission db r1 rid1 n1 sid a1 notes1).1.reviews
      = db.reviews ++ [⟨rid1, sid, r1, a1, notes1,
          (db.submissions.find? (fun x => x.submission_id == sid)).map mkSnapshot, n1⟩]
    ∧ (review_submission (review_submission db r1 rid1 n1 sid a1 notes1).1
          r2 rid2 n2 sid a2 notes2).1.reviews
      = (review_submission db r1 rid1 n1 sid a1 notes1).1.reviews
        ++ [⟨rid2, sid, r2, a2, notes2,
            ((review_submission db r1 rid1 n1 sid a1 notes1).1.submissions.find?
              (fun x => x.submission_id == sid)).map mkSnapshot, n2⟩]
    ∧ (review_submission db r1 rid1 n1 sid a1 notes1).1.submissions
      = db.submissions.map (review_update r1 n1 sid ns1 a1 notes1)
    ∧ (review_submission (review_submission db r1 rid1 n1 sid a1 notes1).1
          r2 rid2 n2 sid a2 notes2).1.submissions
      = (review_submission db r1 rid1 n1 sid a1 notes1).1.submissions.map
          (review_update r2 n2 sid ns2 a2 notes2)
    ∧ (s.manager_state ≠ "pending" → review_update r2 n2 sid ns2 a2 notes2 s = s)
    ∧ (s0.manager_state = "pending" → s0.submission_id = sid →
        (review_update r1 n1 sid ns1 a1 notes1 s0).manager_state = ns1
        ∧ review_update r2 n2 sid ns2 a2 notes2 (review_update r1 n1 sid ns1 a1 notes1 s0)
          = review_update r1 n1 sid ns1 a1 notes1 s0) := by
  refine ⟨?_, ?_, ?_, ?_, ?_, ?_⟩
  · rw [review_submission_valid db r1 rid1 n1 sid a1 notes1 ns1 ha1]
  · rw [review_submission_valid (review_submission db r1 rid1 n1 sid a1 notes1).1
      r2 rid2 n2 sid a2 notes2 ns2 ha2]
  · rw [review_submission_valid db r1 rid1 n1 sid a1 notes1 ns1 ha1]
  · rw [review_submission_valid (review_submission db r1 rid1 n1 sid a1 notes1).1
      r2 rid2 n2 sid a2 notes2 ns2 ha2]
  · intro hns
    unfold review_update
    rw [if_neg (by
      simp only [Bool.and_eq_true, beq_iff_eq]
      rintro ⟨-, hp⟩
      exact hns hp)]
  · intro hp hid
    have hcond : (s0.submission_id == sid && s0.manager_state == "pending") = true := by
      simp [hid, hp]
    have hns1 : ns1 ≠ "pending" := action_state_ne_pending a1 ns1 ha1
    constructor
    · unfold review_update
      rw [if_pos hcond]
    · unfold review_update
      rw [if_pos hcond]
      rw [if_neg (by
        simp only [Bool.and_eq_true, beq_iff_eq]
        rintro ⟨-, hp2⟩
        exact hns1 hp2)]

/-- Witness for C4: one pending submission "s1"; an approve attempt logs its
row, and after it wins, a second deny attempt leaves the row unchanged. -/
theorem c4_review_log_and_pending_guard_witness :
    (review_submission
        ⟨[⟨"s1", "andrew", "WBA1234567890ABCD", 2021, "BMW", "330i", "", "", "{}",
            "pending", "", "", 10, 10, none, none, none, none⟩], []⟩
        "erin" "r1" 11 "s1" "approve" "ok").1.reviews
      = [] ++ [⟨"r1", "s1", "erin", "approve", "ok",
          (([(⟨"s1", "andrew", "WBA1234567890ABCD", 2021, "BMW", "330i", "", "", "{}",
              "pending", "", "", 10, 10, none, none, none, none⟩ : Submission)].find?
            (fun x => x.submission_id == "s1")).map mkSnapshot), 11⟩]
    ∧ ((review_update "erin" 11 "s1" "approved" "approve" "ok"
          ⟨"s1", "andrew", "WBA1234567890ABCD", 2021, "BMW", "330i", "", "", "{}",
            "pending", "", "", 10, 10, none, none, none, none⟩).manager_state = "approved"
      ∧ review_update "andrew" 12 "s1" "denied" "deny" "no"
          (review_update "erin" 11 "s1" "approved" "approve" "ok"
            ⟨"s1", "andrew", "WBA1234567890ABCD", 2021, "BMW", "330i", "", "", "{}",
              "pending", "", "", 10, 10, none, none, none, none⟩)
        = review_update "erin" 11 "s1" "approved" "approve" "ok"
            ⟨"s1", "andrew", "WBA1234567890ABCD", 2021, "BMW", "330i", "", "", "{}",
              "pending", "", "", 10, 10, none, none, none, none⟩) :=
  ⟨(c4_review_log_and_pending_guard
      ⟨[⟨"s1", "andrew", "WBA1234567890ABCD", 2021, "BMW", "330i", "", "", "{}",
          "pending", "", "", 10, 10, none, none, none, none⟩], []⟩
      "erin" "andrew" "r1" "r2" 11 12 "s1" "approve" "deny" "ok" "no" "approved" "denied"
      ⟨"s1", "andrew", "WBA1234567890ABCD", 2021, "BMW", "330i", "", "", "{}",
        "pending", "", "", 10, 10, none, none, none, none⟩
      ⟨"s1", "andrew", "WBA1234567890ABCD", 2021, "BMW", "330i", "", "", "{}",
        "pending", "", "", 10, 10, none, none, none, none⟩
      rfl rfl).1,
   (c4_review_log_and_pending_guard
      ⟨[⟨"s1", "andrew", "WBA1234567890ABCD", 2021, "BMW", "330i", "", "", "{}",
          "pending", "", "", 10, 10, none, none, none, none⟩], []⟩
      "erin" "andrew" "r1" "r2" 11 12 "s1" "approve" "deny" "ok" "no" "approved" "denied"
      ⟨"s1", "andrew", "WBA1234567890ABCD", 2021, "BMW", "330i", "", "", "{}",
        "pending", "", "", 10, 10, none, none, none, none⟩
      ⟨"s1", "andrew", "WBA1234567890ABCD", 2021, "BMW", "330i", "", "", "{}",
        "pending", "", "", 10, 10, none, none, none, none⟩
      rfl rfl).2.2.2.2.2 rfl rfl⟩

end Bavarium
